import Mathlib

/-!
Verification of the webhook chat-relay service in `main.py` against its
specification.  The Python source is shallowly embedded: JSON payloads are an
inductive type, dynamic attribute errors are tracked with `Except`, the
network is an oracle argument giving the outcome of each HTTP attempt, and
`random.choice` is an index argument into the fixed fallback pool.
-/

namespace Postigo

/-- A JSON value, as produced by parsing a request or response body.
An `obj` models a parsed Python dict (keys unique). -/
inductive Json where
  | null
  | bool (b : Bool)
  | num (n : Int)
  | str (s : String)
  | arr (elems : List Json)
  | obj (fields : List (String × Json))

/-- Python truthiness of a JSON value (`if not data`, `if not chat_id`,
`elif text`). -/
def truthy : Json → Bool
  | .null => false
  | .bool b => b
  | .num n => n != 0
  | .str s => s != ""
  | .arr xs => !xs.isEmpty
  | .obj fs => !fs.isEmpty

/-- Exceptions raised by the embedded Python operations; all are subclasses
of `Exception`, so the distinctions only matter for logging. -/
inductive PyError where
  | attributeError
  | keyError
  | typeError
  | indexError
  deriving DecidableEq

/-- `d.get(k, dflt)`: requires a dict receiver, else `AttributeError`. -/
def pyGetD : Json → String → Json → Except PyError Json
  | .obj fs, k, dflt => .ok ((fs.lookup k).getD dflt)
  | _, _, _ => .error .attributeError

/-- `d.get(k)` with no default: `None` for a missing key; requires a dict
receiver, else `AttributeError`. -/
def pyGetOpt : Json → String → Except PyError Json
  | .obj fs, k => .ok ((fs.lookup k).getD .null)
  | _, _ => .error .attributeError

/-- Whitespace characters removed by `str.strip()` (the ASCII ones; the
payloads of interest contain no exotic Unicode spaces). -/
def isPySpace (c : Char) : Bool :=
  c == ' ' || c == '\t' || c == '\n' || c == '\r' || c == '\x0b' || c == '\x0c'

/-- Remove leading whitespace from a character list. -/
def dropSpaces : List Char → List Char
  | [] => []
  | c :: cs => if isPySpace c then dropSpaces cs else c :: cs

/-- `s.strip()` on an actual string: remove leading and trailing
whitespace. -/
def stripString (s : String) : String :=
  ⟨(dropSpaces (dropSpaces s.data).reverse).reverse⟩

/-- `s.startswith(pre)`. -/
def pyStartsWith (s pre : String) : Bool :=
  pre.data.isPrefixOf s.data

/-- `x.strip()`: requires a string receiver, else `AttributeError`. -/
def pyStrip : Json → Except PyError String
  | .str s => .ok (stripString s)
  | _ => .error .attributeError

/-- `d[k]` subscription on a dict: `KeyError` if missing, `TypeError` if the
receiver is not a dict. -/
def pyIndexKey : Json → String → Except PyError Json
  | .obj fs, k =>
    match fs.lookup k with
    | some v => .ok v
    | none => .error .keyError
  | _, _ => .error .typeError

/-- `xs[i]` subscription on a list: `IndexError` if out of range, `TypeError`
if the receiver is not a list. -/
def pyIndexNth : Json → Nat → Except PyError Json
  | .arr xs, i =>
    match xs.get? i with
    | some v => .ok v
    | none => .error .indexError
  | _, _ => .error .typeError

/-! Constants from `main.py`. -/

def MAX_RETRIES : Nat := 3
def REQUEST_TIMEOUT : Nat := 15
def TELEGRAM_API_TIMEOUT : Nat := 10
def HEALTH_CHECK_TIMEOUT : Nat := 3

/-! ## Outbound message sender (`send_telegram_message`)

Each HTTP attempt of the retry loop is resolved by an oracle mapping the
attempt index to its outcome; `exc` is any transport-level fault (connection
error or the 10-time-unit timeout expiring). -/

/-- Outcome of one HTTP call: a response with a status code and an optional
parsed body (`none` when `.json()` would raise), or a raised exception. -/
inductive HttpOutcome where
  | resp (status : Nat) (body : Option Json)
  | exc

/-- `response.status_code == 200`. -/
def ok200 : HttpOutcome → Bool
  | .resp s _ => s == 200
  | .exc => false

/-- Duration of the `time.sleep` executed after a failed attempt:
1 after a non-200 response, 2 after a raised exception. -/
def failSleep : HttpOutcome → Nat
  | .resp _ _ => 1
  | .exc => 2

/-- Observable step of the sender retry loop. -/
inductive SendEvent where
  | attempt (i : Nat)
  | sleep (duration : Nat)
  deriving DecidableEq

/-- Result of one run of the sender: the ordered events it performed and the
boolean it returned. -/
structure SendRun where
  events : List SendEvent
  delivered : Bool
  deriving DecidableEq

/-- The `for attempt in range(MAX_RETRIES)` loop body of
`send_telegram_message`: `i` is the current attempt index, the second
argument the remaining number of iterations. -/
def sendLoop (oracle : Nat → HttpOutcome) (i : Nat) : Nat → SendRun
  | 0 => ⟨[], false⟩
  | r + 1 =>
    match oracle i with
    | .resp s _ =>
      if s == 200 then
        ⟨[.attempt i], true⟩
      else
        ⟨.attempt i :: .sleep 1 :: (sendLoop oracle (i + 1) r).events,
          (sendLoop oracle (i + 1) r).delivered⟩
    | .exc =>
      ⟨.attempt i :: .sleep 2 :: (sendLoop oracle (i + 1) r).events,
        (sendLoop oracle (i + 1) r).delivered⟩

/-- `send_telegram_message`, with the network abstracted by `oracle`. -/
def send_telegram_message (oracle : Nat → HttpOutcome) : SendRun :=
  sendLoop oracle 0 MAX_RETRIES

def isAttempt : SendEvent → Bool
  | .attempt _ => true
  | .sleep _ => false

/-- Number of HTTP POST attempts in an event list. -/
def attemptCount (es : List SendEvent) : Nat := es.countP (fun e => isAttempt e)

/-- Number of `time.sleep` calls in an event list. -/
def sleepCount (es : List SendEvent) : Nat := es.countP (fun e => !isAttempt e)

/-! ## Completion client (`generate_response`)

The single HTTP POST to the completion API is resolved by a `CompOutcome`
argument; `random.choice` over the fallback pool is resolved by a numeric
argument `r`, reduced modulo the pool size. -/

/-- The fixed fallback pool `fallback_responses` of `generate_response`. -/
def fallback_responses : List String :=
  ["Tô meio lenta hoje... manda de novo? 😅",
   "A conexão falou... bora tentar outra vez? 🔥",
   "Nem ouvi direito... repete aí gato! 😏"]

/-- `random.choice(fallback_responses)`, with the randomness supplied as the
index `r`. -/
def fallbackChoice (r : Nat) : String :=
  fallback_responses.getD (r % 3) ""

/-- Outcome of the one HTTP POST of `generate_response`.  The separate
`timeout` and `transportError` constructors mirror the separate
`except requests.exceptions.Timeout` and `except Exception` clauses; a
response carries a status code and `none` for a body on which `.json()`
raises. -/
inductive CompOutcome where
  | timeout
  | transportError
  | resp (status : Nat) (body : Option Json)

/-- `response.json()["choices"][0]["message"]["content"]`. -/
def extractContent (j : Json) : Except PyError Json := do
  let choices ← pyIndexKey j "choices"
  let first ← pyIndexNth choices 0
  let message ← pyIndexKey first "message"
  pyIndexKey message "content"

/-- Truthiness of `OPENROUTER_API_KEY` as tested by
`if not OPENROUTER_API_KEY`. -/
def keyConfigured : Option String → Bool
  | none => false
  | some s => s != ""

/-- Result of one call to `generate_response`: the value it returned and the
number of HTTP POSTs it made to the completion API. -/
structure CompRun where
  reply : Json
  apiCalls : Nat

/-- `generate_response`.  Every failure path ends in
`return random.choice(fallback_responses)`; a 200 response returns the
extracted content value unchanged. -/
def generate_response (apiKey : Option String) (outcome : CompOutcome) (r : Nat)
    (_prompt : String) : CompRun :=
  if !keyConfigured apiKey then
    ⟨.str (fallbackChoice r), 0⟩
  else
    match outcome with
    | .timeout => ⟨.str (fallbackChoice r), 1⟩
    | .transportError => ⟨.str (fallbackChoice r), 1⟩
    | .resp status body =>
      if status == 200 then
        match body with
        | none => ⟨.str (fallbackChoice r), 1⟩
        | some j =>
          match extractContent j with
          | .ok content => ⟨content, 1⟩
          | .error _ => ⟨.str (fallbackChoice r), 1⟩
      else
        ⟨.str (fallbackChoice r), 1⟩

/-! ## Health probe (`health_check`)

Each of the two dependency checks is resolved by its own `HttpOutcome`;
`exc` covers a connection error or the 3-time-unit timeout expiring.  In the
source each check sits in its own `try` block, so a failure of the Telegram
check cannot abort the OpenRouter check; accordingly each field of the
result depends only on its own outcome. -/

/-- The JSON document returned by the `/health` endpoint. -/
structure HealthResult where
  status : String
  telegram_api : Bool
  openrouter_api : Bool
  deriving DecidableEq

/-- `health_check`. -/
def health_check (tg orr : HttpOutcome) : HealthResult :=
  let telegramOk := ok200 tg
  let openrouterOk := ok200 orr
  { status := if telegramOk && openrouterOk then "healthy" else "degraded"
    telegram_api := telegramOk
    openrouter_api := openrouterOk }

/-! ## Webhook handler (`webhook`)

The handler input is the value returned by `request.get_json()` (`none` for
an empty or unparseable body), plus the oracles threaded to the completion
client and the sender. -/

/-- Fixed reply to the `/start` command. -/
def START_GREETING : String :=
  "E aí gato! Eu sou a Melissa, sua acompanhante virtual... 😏 O que vamos aprontar hoje?"

/-- Fixed reply when the extracted text is empty. -/
def EMPTY_TEXT_PROMPT : String :=
  "Manda algo mais interessante pra eu responder... 👀"

/-- `jsonify({"status": "error", "message": msg})`. -/
def errorBody (msg : String) : Json :=
  .obj [("status", .str "error"), ("message", .str msg)]

/-- `jsonify({"status": "success"})`. -/
def successBody : Json := .obj [("status", .str "success")]

/-- Lines 264-266 of the handler: extract `message`, `chat`, `chat_id` and
the stripped `text`; any dynamic failure is a raised exception. -/
def extractParts (d : Json) : Except PyError (Json × String) :=
  match pyGetD d "message" (.obj []) with
  | .error e => .error e
  | .ok message =>
    match pyGetD message "chat" (.obj []) with
    | .error e => .error e
    | .ok chatObj =>
      match pyGetOpt chatObj "id" with
      | .error e => .error e
      | .ok chatId =>
        match pyGetD message "text" (.str "") with
        | .error e => .error e
        | .ok textJson =>
          match pyStrip textJson with
          | .error e => .error e
          | .ok text => .ok (chatId, text)

/-- The chat-id extraction `data.get("message", {}).get("chat", {}).get("id")`
on its own. -/
def chatIdOf (d : Json) : Except PyError Json :=
  match pyGetD d "message" (.obj []) with
  | .error e => .error e
  | .ok message =>
    match pyGetD message "chat" (.obj []) with
    | .error e => .error e
    | .ok chatObj => pyGetOpt chatObj "id"

/-- Result of one run of the webhook handler: HTTP status and body of its
response, the list of sender invocations it made (chat id and reply text),
the number of HTTP calls made to the completion API, and the boolean the
sender returned when it was invoked. -/
structure WebhookResult where
  httpStatus : Nat
  httpBody : Json
  sends : List (Json × Json)
  apiCalls : Nat
  delivered : Option Bool

/-- The body of the handler `try` block after the `if not data` check. -/
def webhookTry (d : Json) (apiKey : Option String) (comp : CompOutcome) (r : Nat)
    (sender : Nat → HttpOutcome) : Except PyError WebhookResult :=
  match extractParts d with
  | .error e => .error e
  | .ok (chatId, text) =>
    if !truthy chatId then
      .ok ⟨400, errorBody "Invalid chat ID", [], 0, none⟩
    else
      let gen : CompRun :=
        if pyStartsWith text "/start" then ⟨.str START_GREETING, 0⟩
        else if text != "" then generate_response apiKey comp r text
        else ⟨.str EMPTY_TEXT_PROMPT, 0⟩
      .ok ⟨200, successBody, [(chatId, gen.reply)], gen.apiCalls,
        some (send_telegram_message sender).delivered⟩

/-- `webhook`: validation, dispatch, send, and the outer exception handler
that turns any raised exception into HTTP 500. -/
def webhook (data : Option Json) (apiKey : Option String) (comp : CompOutcome)
    (r : Nat) (sender : Nat → HttpOutcome) : WebhookResult :=
  match data with
  | none => ⟨400, errorBody "Empty request", [], 0, none⟩
  | some d =>
    if !truthy d then ⟨400, errorBody "Empty request", [], 0, none⟩
    else
      match webhookTry d apiKey comp r sender with
      | .ok result => result
      | .error _ => ⟨500, errorBody "Internal server error", [], 0, none⟩

/-! Concrete request bodies used in counterexamples and witnesses. -/

/-- Body with message.chat.id = 1 (truthy) but message.text = 42, a number:
`42 .strip()` raises `AttributeError`. -/
def c1Body : Json :=
  .obj [("message", .obj [("chat", .obj [("id", .num 1)]), ("text", .num 42)])]

/-- Well-formed body: chat id 3, text "hello". -/
def c1WitnessBody : Json :=
  .obj [("message", .obj [("chat", .obj [("id", .num 3)]), ("text", .str "hello")])]

/-- Body with message.chat.id present and equal to the integer 0, no text. -/
def c2BodyA : Json := .obj [("message", .obj [("chat", .obj [("id", .num 0)])])]

/-- Well-formed body: chat id 1, text "/start". -/
def c6Body : Json :=
  .obj [("message", .obj [("chat", .obj [("id", .num 1)]), ("text", .str "/start")])]

/-- Body with truthy chat id 7 but message.text = true, a boolean:
`True.strip()` raises `AttributeError`. -/
def c8Body : Json :=
  .obj [("message", .obj [("chat", .obj [("id", .num 7)]), ("text", .bool true)])]

/-- Well-formed body: chat id 9, text "oi". -/
def c8WitnessBody : Json :=
  .obj [("message", .obj [("chat", .obj [("id", .num 9)]), ("text", .str "oi")])]

/-- Body with message.chat.id = 0 and message.text = 5, a number. -/
def c9Body : Json :=
  .obj [("message", .obj [("chat", .obj [("id", .num 0)]), ("text", .num 5)])]

/-- Body with message.chat.id present and equal to 0, text absent. -/
def c9WitnessBody : Json := .obj [("message", .obj [("chat", .obj [("id", .num 0)])])]

/-- Body with the chat object present but the id key absent. -/
def c9AbsentBody : Json := .obj [("message", .obj [("chat", .obj [])])]

/-! ## Helper lemmas on the sender loop -/

/-- One loop iteration whose attempt returns HTTP 200: the loop stops and
returns true with no further events. -/
lemma sendLoop_ok (oracle : Nat → HttpOutcome) (i r rr : Nat) (hr : rr = r + 1)
    (h : ok200 (oracle i) = true) :
    sendLoop oracle i rr = ⟨[.attempt i], true⟩ := by
  subst hr
  cases ho : oracle i with
  | resp s b =>
    rw [ho] at h
    simp only [ok200, beq_iff_eq] at h
    simp [sendLoop, ho, h]
  | exc =>
    rw [ho] at h
    simp [ok200] at h

/-- One loop iteration whose attempt fails: the attempt is followed by the
corresponding sleep and the loop continues. -/
lemma sendLoop_fail (oracle : Nat → HttpOutcome) (i j r rr : Nat) (hj : j = i + 1)
    (hr : rr = r + 1) (h : ok200 (oracle i) = false) :
    sendLoop oracle i rr =
      ⟨.attempt i :: .sleep (failSleep (oracle i)) :: (sendLoop oracle j r).events,
        (sendLoop oracle j r).delivered⟩ := by
  subst hj hr
  cases ho : oracle i with
  | resp s b =>
    rw [ho] at h
    simp only [ok200, beq_eq_false_iff_ne, ne_eq] at h
    simp [sendLoop, ho, h, failSleep]
  | exc =>
    simp [sendLoop, ho, failSleep]

/-- Exhaustive description of a sender run, by the position of the first
successful attempt (if any) among the three allowed by `MAX_RETRIES`. -/
lemma send_run_cases (oracle : Nat → HttpOutcome) :
    (ok200 (oracle 0) = true ∧
      send_telegram_message oracle = ⟨[.attempt 0], true⟩) ∨
    (ok200 (oracle 0) = false ∧ ok200 (oracle 1) = true ∧
      send_telegram_message oracle =
        ⟨[.attempt 0, .sleep (failSleep (oracle 0)), .attempt 1], true⟩) ∨
    (ok200 (oracle 0) = false ∧ ok200 (oracle 1) = false ∧ ok200 (oracle 2) = true ∧
      send_telegram_message oracle =
        ⟨[.attempt 0, .sleep (failSleep (oracle 0)), .attempt 1,
          .sleep (failSleep (oracle 1)), .attempt 2], true⟩) ∨
    (ok200 (oracle 0) = false ∧ ok200 (oracle 1) = false ∧ ok200 (oracle 2) = false ∧
      send_telegram_message oracle =
        ⟨[.attempt 0, .sleep (failSleep (oracle 0)), .attempt 1,
          .sleep (failSleep (oracle 1)), .attempt 2, .sleep (failSleep (oracle 2))],
          false⟩) := by
  have e : send_telegram_message oracle = sendLoop oracle 0 3 := rfl
  cases h0 : ok200 (oracle 0) with
  | true =>
    refine Or.inl ⟨rfl, ?_⟩
    rw [e, sendLoop_ok oracle 0 2 3 rfl h0]
  | false =>
    cases h1 : ok200 (oracle 1) with
    | true =>
      refine Or.inr (Or.inl ⟨rfl, rfl, ?_⟩)
      rw [e, sendLoop_fail oracle 0 1 2 3 rfl rfl h0, sendLoop_ok oracle 1 1 2 rfl h1]
    | false =>
      cases h2 : ok200 (oracle 2) with
      | true =>
        refine Or.inr (Or.inr (Or.inl ⟨rfl, rfl, rfl, ?_⟩))
        rw [e, sendLoop_fail oracle 0 1 2 3 rfl rfl h0,
          sendLoop_fail oracle 1 2 1 2 rfl rfl h1, sendLoop_ok oracle 2 0 1 rfl h2]
      | false =>
        refine Or.inr (Or.inr (Or.inr ⟨rfl, rfl, rfl, ?_⟩))
        rw [e, sendLoop_fail oracle 0 1 2 3 rfl rfl h0,
          sendLoop_fail oracle 1 2 1 2 rfl rfl h1,
          sendLoop_fail oracle 2 3 0 1 rfl rfl h2]
        rfl

/-- The chosen fallback is always a member of the fixed pool. -/
lemma fallbackChoice_mem (r : Nat) : fallbackChoice r ∈ fallback_responses := by
  have h : r % 3 < 3 := Nat.mod_lt _ (by norm_num)
  rcases hm : r % 3 with _ | n
  · simp [fallbackChoice, hm, fallback_responses]
  · rcases n with _ | m
    · simp [fallbackChoice, hm, fallback_responses]
    · rcases m with _ | k
      · simp [fallbackChoice, hm, fallback_responses]
      · rw [hm] at h; omega

/-- Evaluation of the webhook handler on an update that passes validation:
the response is 200 success, one send is made, and the reply is chosen by
the dispatch on the stripped text. -/
lemma webhook_ok (d cid : Json) (t : String) (apiKey : Option String)
    (comp : CompOutcome) (r : Nat) (sender : Nat → HttpOutcome)
    (hd : truthy d = true) (hx : extractParts d = .ok (cid, t))
    (hcid : truthy cid = true) :
    webhook (some d) apiKey comp r sender =
      ⟨200, successBody,
        [(cid, (if pyStartsWith t "/start" then (⟨Json.str START_GREETING, 0⟩ : CompRun)
                else if t != "" then generate_response apiKey comp r t
                else ⟨Json.str EMPTY_TEXT_PROMPT, 0⟩).reply)],
        (if pyStartsWith t "/start" then (⟨Json.str START_GREETING, 0⟩ : CompRun)
         else if t != "" then generate_response apiKey comp r t
         else ⟨Json.str EMPTY_TEXT_PROMPT, 0⟩).apiCalls,
        some (send_telegram_message sender).delivered⟩ := by
  simp [webhook, webhookTry, hd, hx, hcid]

/-! ## Claim C1 -/

/-- Claim C1, counterexample.  The body `c1Body` parses to a non-empty JSON
object and yields the truthy chat identifier 1, yet the handler makes zero
send attempts: the numeric `text` field makes `strip` raise, which the outer
handler turns into HTTP 500 before the Sender is ever invoked.  This refutes
the claim that every such update initiates exactly one send attempt
sequence. -/
theorem webhook_send_invariant_counterexample :
    truthy c1Body = true ∧
    chatIdOf c1Body = .ok (Json.num 1) ∧
    truthy (Json.num 1) = true ∧
    (webhook (some c1Body) (some "k") CompOutcome.timeout 0
      (fun _ => HttpOutcome.exc)).sends = [] ∧
    (webhook (some c1Body) (some "k") CompOutcome.timeout 0
      (fun _ => HttpOutcome.exc)).httpStatus = 500 :=
  ⟨rfl, rfl, rfl, rfl, rfl⟩

/-- Claim C1, amended.  For every inbound update whose body parses to a
truthy JSON value, on which extraction of the chat id and of the stripped
text succeeds (so message and chat are objects where present and text, when
present, is a string), and whose extracted chat id is truthy, the webhook
handler initiates exactly one outbound send attempt sequence via the Sender
- never zero, never more than one - regardless of whether the reply text
came from the /start greeting, the Completion Client, or the empty-text
prompt (the completion configuration and outcome are universally
quantified). -/
theorem webhook_send_invariant_amended
    (d cid : Json) (t : String) (apiKey : Option String) (comp : CompOutcome) (r : Nat)
    (sender : Nat → HttpOutcome)
    (hd : truthy d = true) (hx : extractParts d = .ok (cid, t))
    (hcid : truthy cid = true) :
    (webhook (some d) apiKey comp r sender).sends.length = 1 := by
  rw [webhook_ok d cid t apiKey comp r sender hd hx hcid]
  rfl

/-- Claim C1, witness for the amended theorem at a concrete update. -/
theorem webhook_send_invariant_amended_witness :
    (webhook (some c1WitnessBody) (some "k") (CompOutcome.resp 500 none) 0
      (fun _ => HttpOutcome.exc)).sends.length = 1 :=
  webhook_send_invariant_amended c1WitnessBody (Json.num 3) "hello" (some "k")
    (CompOutcome.resp 500 none) 0 (fun _ => HttpOutcome.exc) rfl rfl rfl

/-! ## Claim C2 -/

/-- Claim C2, counterexample.  The claim states the handler returns 400 if
and only if the body is empty or unparseable or lacks message.chat.id.
Both directions fail: `c2BodyA` has message.chat.id present (the integer 0)
yet receives 400, and the non-empty parseable array body lacks
message.chat.id yet receives 500 (the `get` attribute access raises and the
outer handler answers 500). -/
theorem webhook_badrequest_iff_counterexample :
    (List.lookup "id" [("id", Json.num 0)]) = some (Json.num 0) ∧
    chatIdOf c2BodyA = .ok (Json.num 0) ∧
    (webhook (some c2BodyA) none CompOutcome.timeout 0
      (fun _ => HttpOutcome.exc)).httpStatus = 400 ∧
    truthy (Json.arr [Json.num 1]) = true ∧
    chatIdOf (Json.arr [Json.num 1]) = .error .attributeError ∧
    (webhook (some (Json.arr [Json.num 1])) none CompOutcome.timeout 0
      (fun _ => HttpOutcome.exc)).httpStatus = 500 :=
  ⟨rfl, rfl, rfl, rfl, rfl, rfl⟩

/-- Claim C2, amended.  An empty or unparseable body yields 400 with no send
attempt.  For a parsed body on which the extraction of message.chat.id and
of the stripped text succeeds, the handler returns 400 exactly when the body
is falsy or the extracted chat id is falsy (absent, null, 0, false or
empty); in every such case no send attempt is made.  Bodies on which the
extraction raises receive 500 instead. -/
theorem webhook_badrequest_iff_amended
    (d cid : Json) (t : String) (apiKey : Option String) (comp : CompOutcome)
    (r : Nat) (sender : Nat → HttpOutcome)
    (hx : extractParts d = .ok (cid, t)) :
    ((webhook none apiKey comp r sender).httpStatus = 400 ∧
      (webhook none apiKey comp r sender).sends = []) ∧
    ((webhook (some d) apiKey comp r sender).httpStatus = 400 ↔
      (truthy d = false ∨ truthy cid = false)) ∧
    ((truthy d = false ∨ truthy cid = false) →
      (webhook (some d) apiKey comp r sender).sends = []) := by
  refine ⟨⟨rfl, rfl⟩, ?_, ?_⟩ <;> cases hd : truthy d <;> cases hc : truthy cid <;>
    simp [webhook, webhookTry, hd, hx, hc]

/-- Claim C2, witness for the amended theorem: the missing-body case and the
falsy chat id case both answer 400 with no send. -/
theorem webhook_badrequest_iff_amended_witness :
    (webhook none none CompOutcome.timeout 0 (fun _ => HttpOutcome.exc)).httpStatus
      = 400 ∧
    (webhook (some c2BodyA) none CompOutcome.timeout 0
      (fun _ => HttpOutcome.exc)).httpStatus = 400 ∧
    (webhook (some c2BodyA) none CompOutcome.timeout 0
      (fun _ => HttpOutcome.exc)).sends = [] := by
  have h := webhook_badrequest_iff_amended c2BodyA (Json.num 0) "" none
    CompOutcome.timeout 0 (fun _ => HttpOutcome.exc) rfl
  exact ⟨h.1.1, h.2.1.mpr (Or.inr rfl), h.2.2 (Or.inr rfl)⟩

/-! ## Claim C3 -/

/-- Claim C3, counterexample.  A 200 response whose first-choice content is
the number 42 makes `generate_response` return the number 42 itself, which
is neither a string nor a member of the fallback pool, refuting the claim
that the Completion Client always returns a string and that every malformed
body degrades to the pool. -/
theorem generate_response_string_counterexample :
    (generate_response (some "k")
        (CompOutcome.resp 200 (some (Json.obj [("choices",
          Json.arr [Json.obj [("message", Json.obj [("content", Json.num 42)])]])])))
        0 "oi").reply = Json.num 42 ∧
    (∀ s : String, Json.num 42 ≠ Json.str s) ∧
    (∀ s ∈ fallback_responses, Json.num 42 ≠ Json.str s) := by
  refine ⟨rfl, fun s => by simp, fun s _ => by simp⟩

/-- Claim C3, amended.  `generate_response` never raises (it is a total
function into `CompRun`).  With no API credential configured it returns a
fallback-pool member and makes no HTTP call.  With a credential it makes
exactly one HTTP attempt (no retry), and a timeout, a transport error, a
non-200 status, a 200 response whose body cannot be parsed, or a 200 body on
which the content extraction raises all yield a fallback-pool member; a 200
body on which extraction succeeds returns the extracted content value
unchanged, a string only when the provider schema is respected. -/
theorem generate_response_fallback_amended
    (apiKey : Option String) (outcome : CompOutcome) (r : Nat) (p : String) :
    fallbackChoice r ∈ fallback_responses ∧
    (keyConfigured apiKey = false →
      generate_response apiKey outcome r p = ⟨Json.str (fallbackChoice r), 0⟩) ∧
    (keyConfigured apiKey = true →
      (generate_response apiKey outcome r p).apiCalls = 1 ∧
      (outcome = CompOutcome.timeout →
        (generate_response apiKey outcome r p).reply = Json.str (fallbackChoice r)) ∧
      (outcome = CompOutcome.transportError →
        (generate_response apiKey outcome r p).reply = Json.str (fallbackChoice r)) ∧
      (∀ status body, outcome = CompOutcome.resp status body → status ≠ 200 →
        (generate_response apiKey outcome r p).reply = Json.str (fallbackChoice r)) ∧
      (outcome = CompOutcome.resp 200 none →
        (generate_response apiKey outcome r p).reply = Json.str (fallbackChoice r)) ∧
      (∀ j e, outcome = CompOutcome.resp 200 (some j) →
        extractContent j = Except.error e →
        (generate_response apiKey outcome r p).reply = Json.str (fallbackChoice r)) ∧
      (∀ j c, outcome = CompOutcome.resp 200 (some j) →
        extractContent j = Except.ok c →
        (generate_response apiKey outcome r p).reply = c)) := by
  refine ⟨fallbackChoice_mem r, fun hk => by simp [generate_response, hk], fun hk => ?_⟩
  refine ⟨?_, ?_, ?_, ?_, ?_, ?_, ?_⟩
  · cases outcome with
    | timeout => simp [generate_response, hk]
    | transportError => simp [generate_response, hk]
    | resp status body =>
      by_cases hs : status = 200
      · subst hs
        cases body with
        | none => simp [generate_response, hk]
        | some j => cases hext : extractContent j <;> simp [generate_response, hk, hext]
      · simp [generate_response, hk, hs]
  · rintro rfl; simp [generate_response, hk]
  · rintro rfl; simp [generate_response, hk]
  · rintro status body rfl hne; simp [generate_response, hk, hne]
  · rintro rfl; simp [generate_response, hk]
  · rintro j e rfl hext; simp [generate_response, hk, hext]
  · rintro j c rfl hext; simp [generate_response, hk, hext]

/-- Claim C3, witness for the amended theorem: the no-credential case makes
no call, and a timeout with a credential degrades to the pool after one
attempt. -/
theorem generate_response_fallback_amended_witness :
    generate_response none CompOutcome.timeout 0 "oi" = ⟨Json.str (fallbackChoice 0), 0⟩ ∧
    (generate_response (some "k") CompOutcome.timeout 1 "oi").reply =
      Json.str (fallbackChoice 1) ∧
    fallbackChoice 1 ∈ fallback_responses := by
  have h1 := generate_response_fallback_amended none CompOutcome.timeout 0 "oi"
  have h2 := generate_response_fallback_amended (some "k") CompOutcome.timeout 1 "oi"
  exact ⟨h1.2.1 rfl, (h2.2.2 rfl).2.1 rfl, h2.1⟩

/-! ## Claim C4 -/

/-- Claim C4.  The Sender makes at most 3 HTTP POST attempts.  An HTTP 200
response terminates the loop immediately (the run ends at that attempt with
no further event) and returns true.  After a failed attempt the sender waits
`failSleep` time units before the next attempt: 1 after a non-200 response
and 2 after a transport-level fault.  If all 3 attempts fail the run returns
false without raising (the model is a total function). -/
theorem sender_retry_policy (oracle : Nat → HttpOutcome) :
    attemptCount (send_telegram_message oracle).events ≤ MAX_RETRIES ∧
    (ok200 (oracle 0) = true →
      send_telegram_message oracle = ⟨[.attempt 0], true⟩) ∧
    (ok200 (oracle 0) = false → ok200 (oracle 1) = true →
      send_telegram_message oracle =
        ⟨[.attempt 0, .sleep (failSleep (oracle 0)), .attempt 1], true⟩) ∧
    (ok200 (oracle 0) = false → ok200 (oracle 1) = false → ok200 (oracle 2) = true →
      send_telegram_message oracle =
        ⟨[.attempt 0, .sleep (failSleep (oracle 0)), .attempt 1,
          .sleep (failSleep (oracle 1)), .attempt 2], true⟩) ∧
    (ok200 (oracle 0) = false → ok200 (oracle 1) = false → ok200 (oracle 2) = false →
      send_telegram_message oracle =
        ⟨[.attempt 0, .sleep (failSleep (oracle 0)), .attempt 1,
          .sleep (failSleep (oracle 1)), .attempt 2, .sleep (failSleep (oracle 2))],
          false⟩) ∧
    (∀ s b, failSleep (HttpOutcome.resp s b) = 1) ∧ failSleep HttpOutcome.exc = 2 := by
  rcases send_run_cases oracle with ⟨h0, hv⟩ | ⟨h0, h1, hv⟩ | ⟨h0, h1, h2, hv⟩ |
    ⟨h0, h1, h2, hv⟩ <;>
  · rw [hv]
    refine ⟨by simp [attemptCount, isAttempt, MAX_RETRIES], ?_, ?_, ?_, ?_,
      fun _ _ => rfl, rfl⟩ <;> intros <;> simp_all

/-- Claim C4, witness: a permanent-503 upstream exhausts all three attempts
with a 1-unit wait after each and returns false; an immediate-200 upstream
succeeds on attempt 1. -/
theorem sender_retry_policy_witness :
    send_telegram_message (fun _ => HttpOutcome.resp 503 none) =
      ⟨[.attempt 0, .sleep 1, .attempt 1, .sleep 1, .attempt 2, .sleep 1], false⟩ ∧
    send_telegram_message (fun _ => HttpOutcome.resp 200 none) = ⟨[.attempt 0], true⟩ := by
  have h1 := sender_retry_policy (fun _ => HttpOutcome.resp 503 none)
  have h2 := sender_retry_policy (fun _ => HttpOutcome.resp 200 none)
  exact ⟨h1.2.2.2.2.1 rfl rfl rfl, h2.2.1 rfl⟩

/-! ## Claim C5 -/

/-- Claim C5.  For every input prompt, when the completion API answers
HTTP 200 with a body whose choices list holds one message with content X,
`generate_response` returns exactly the string X after one HTTP attempt. -/
theorem generate_response_extracts_content (apiKey : Option String) (r : Nat)
    (p X : String) (hk : keyConfigured apiKey = true) :
    generate_response apiKey
        (CompOutcome.resp 200 (some (Json.obj [("choices",
          Json.arr [Json.obj [("message", Json.obj [("content", Json.str X)])]])])))
        r p = ⟨Json.str X, 1⟩ := by
  have hext : extractContent (Json.obj [("choices",
      Json.arr [Json.obj [("message", Json.obj [("content", Json.str X)])]])]) =
      .ok (Json.str X) := rfl
  simp [generate_response, hk, hext]

/-- Claim C5, witness at the literal content "X". -/
theorem generate_response_extracts_content_witness :
    keyConfigured (some "key") = true ∧
    generate_response (some "key")
        (CompOutcome.resp 200 (some (Json.obj [("choices",
          Json.arr [Json.obj [("message", Json.obj [("content", Json.str "X")])]])])))
        0 "hello" = ⟨Json.str "X", 1⟩ :=
  ⟨rfl, generate_response_extracts_content (some "key") 0 "hello" "X" rfl⟩

/-! ## Claim C6 -/

/-- Claim C6.  For every inbound update that passes validation and whose
stripped text starts with the literal token "/start", the handler run is
identical for any two completion configurations, outcomes and random draws,
the single reply sent is the fixed greeting, and no HTTP call to the
completion provider is made. -/
theorem webhook_start_fixed_greeting
    (d cid : Json) (t : String) (k1 k2 : Option String) (c1 c2 : CompOutcome)
    (r1 r2 : Nat) (sender : Nat → HttpOutcome)
    (hd : truthy d = true) (hx : extractParts d = .ok (cid, t))
    (hcid : truthy cid = true) (hs : pyStartsWith t "/start" = true) :
    webhook (some d) k1 c1 r1 sender = webhook (some d) k2 c2 r2 sender ∧
    (webhook (some d) k1 c1 r1 sender).sends = [(cid, Json.str START_GREETING)] ∧
    (webhook (some d) k1 c1 r1 sender).apiCalls = 0 := by
  rw [webhook_ok d cid t k1 c1 r1 sender hd hx hcid,
    webhook_ok d cid t k2 c2 r2 sender hd hx hcid]
  simp [hs]

/-- Claim C6, witness: the /start update yields the greeting under two
different completion configurations and outcomes. -/
theorem webhook_start_fixed_greeting_witness :
    webhook (some c6Body) none CompOutcome.timeout 0 (fun _ => HttpOutcome.exc) =
      webhook (some c6Body) (some "k") (CompOutcome.resp 200 none) 5
        (fun _ => HttpOutcome.exc) ∧
    (webhook (some c6Body) none CompOutcome.timeout 0
      (fun _ => HttpOutcome.exc)).sends = [(Json.num 1, Json.str START_GREETING)] ∧
    (webhook (some c6Body) none CompOutcome.timeout 0
      (fun _ => HttpOutcome.exc)).apiCalls = 0 := by
  have h := webhook_start_fixed_greeting c6Body (Json.num 1) "/start" none (some "k")
    CompOutcome.timeout (CompOutcome.resp 200 none) 0 5 (fun _ => HttpOutcome.exc)
    rfl rfl rfl rfl
  exact ⟨h.1, h.2.1, h.2.2⟩

/-! ## Claim C7 -/

/-- Claim C7.  The health probe always returns a structured result whose
status is "healthy" exactly when both the messaging-platform check and the
completion-API check observe an HTTP 200 (within their 3-time-unit timeout;
an expired timeout is an `exc` outcome), and "degraded" in every other case.
Each check field equals the outcome of its own probe only, so a caught
failure of the first check cannot suppress or alter the second check. -/
theorem health_check_aggregate (tg orr : HttpOutcome) :
    ((health_check tg orr).status = "healthy" ↔ (ok200 tg = true ∧ ok200 orr = true)) ∧
    ((health_check tg orr).status = "healthy" ∨ (health_check tg orr).status = "degraded") ∧
    (health_check tg orr).telegram_api = ok200 tg ∧
    (health_check tg orr).openrouter_api = ok200 orr ∧
    (∀ tg2, (health_check tg2 orr).openrouter_api = (health_check tg orr).openrouter_api) ∧
    (∀ orr2, (health_check tg orr2).telegram_api = (health_check tg orr).telegram_api) := by
  cases htg : ok200 tg <;> cases horr : ok200 orr <;>
    simp [health_check, htg, horr]

/-! ## Claim C8 -/

/-- Claim C8, counterexample.  The body `c8Body` is valid JSON with a truthy
chat id, yet the handler answers 500, not 200: the boolean `text` field
makes `strip` raise before validation completes.  This refutes the claim
that every update with a valid body and chat id receives 200 success. -/
theorem webhook_ack_counterexample :
    truthy c8Body = true ∧
    chatIdOf c8Body = .ok (Json.num 7) ∧
    truthy (Json.num 7) = true ∧
    (webhook (some c8Body) none CompOutcome.timeout 0
      (fun _ => HttpOutcome.exc)).httpStatus = 500 ∧
    (webhook (some c8Body) none CompOutcome.timeout 0
      (fun _ => HttpOutcome.exc)).httpBody = errorBody "Internal server error" :=
  ⟨rfl, rfl, rfl, rfl, rfl⟩

/-- Claim C8, amended.  For every inbound update that passes the handler
validation (truthy parsed body, successful extraction of chat id and
stripped text, truthy chat id), the HTTP response is 200 with the success
body for every Sender behavior, and is the same for any two Sender
behaviors: a send failure does not change the response. -/
theorem webhook_ack_independent_of_sender_amended
    (d cid : Json) (t : String) (apiKey : Option String) (comp : CompOutcome) (r : Nat)
    (hd : truthy d = true) (hx : extractParts d = .ok (cid, t))
    (hcid : truthy cid = true) :
    ∀ sender1 sender2 : Nat → HttpOutcome,
      (webhook (some d) apiKey comp r sender1).httpStatus = 200 ∧
      (webhook (some d) apiKey comp r sender1).httpBody = successBody ∧
      (webhook (some d) apiKey comp r sender1).httpStatus =
        (webhook (some d) apiKey comp r sender2).httpStatus ∧
      (webhook (some d) apiKey comp r sender1).httpBody =
        (webhook (some d) apiKey comp r sender2).httpBody := by
  intro s1 s2
  rw [webhook_ok d cid t apiKey comp r s1 hd hx hcid,
    webhook_ok d cid t apiKey comp r s2 hd hx hcid]
  exact ⟨rfl, rfl, rfl, rfl⟩

/-- Claim C8, witness: a delivery that fails every attempt still gets the
same 200 success response as a delivery that succeeds. -/
theorem webhook_ack_independent_of_sender_amended_witness :
    (webhook (some c8WitnessBody) none CompOutcome.timeout 0
      (fun _ => HttpOutcome.exc)).httpStatus = 200 ∧
    (webhook (some c8WitnessBody) none CompOutcome.timeout 0
      (fun _ => HttpOutcome.exc)).httpBody = successBody ∧
    (webhook (some c8WitnessBody) none CompOutcome.timeout 0
      (fun _ => HttpOutcome.exc)).httpStatus =
      (webhook (some c8WitnessBody) none CompOutcome.timeout 0
        (fun _ => HttpOutcome.resp 200 none)).httpStatus := by
  have h := webhook_ack_independent_of_sender_amended c8WitnessBody (Json.num 9) "oi"
    none CompOutcome.timeout 0 rfl rfl rfl (fun _ => HttpOutcome.exc)
    (fun _ => HttpOutcome.resp 200 none)
  exact ⟨h.1, h.2.1, h.2.2.1⟩

/-! ## Claim C9 -/

/-- Claim C9, counterexample.  The update `c9Body` has message.chat.id
present and equal to the integer 0, but is answered with 500, not 400: its
numeric `text` field makes `strip` raise before the chat id truthiness test
runs.  This refutes the claim that every update with id 0 is rejected with
HTTP 400. -/
theorem webhook_zero_chatid_counterexample :
    chatIdOf c9Body = .ok (Json.num 0) ∧
    (webhook (some c9Body) none CompOutcome.timeout 0
      (fun _ => HttpOutcome.exc)).httpStatus = 500 ∧
    (webhook (some c9Body) none CompOutcome.timeout 0
      (fun _ => HttpOutcome.exc)).httpStatus ≠ 400 :=
  ⟨rfl, rfl, by decide⟩

/-- Claim C9, amended.  An inbound update whose message.chat.id extraction
yields the integer 0 and whose text extraction succeeds (text absent or a
string) is rejected with HTTP 400 and the "Invalid chat ID" body, with no
send attempt and no completion call, exactly as an update whose id is
absent (extraction yields null): the handler tests the extracted id for
truthiness, not presence, and both runs produce identical results. -/
theorem webhook_zero_chatid_amended
    (d d2 : Json) (t t2 : String) (apiKey : Option String) (comp : CompOutcome) (r : Nat)
    (sender : Nat → HttpOutcome)
    (hd : truthy d = true) (hx : extractParts d = .ok (Json.num 0, t))
    (hd2 : truthy d2 = true) (hx2 : extractParts d2 = .ok (Json.null, t2)) :
    (webhook (some d) apiKey comp r sender).httpStatus = 400 ∧
    (webhook (some d) apiKey comp r sender).httpBody = errorBody "Invalid chat ID" ∧
    (webhook (some d) apiKey comp r sender).sends = [] ∧
    (webhook (some d) apiKey comp r sender).apiCalls = 0 ∧
    webhook (some d) apiKey comp r sender = webhook (some d2) apiKey comp r sender := by
  have h0 : truthy (Json.num 0) = false := rfl
  have hn : truthy Json.null = false := rfl
  simp [webhook, webhookTry, hd, hx, hd2, hx2, h0, hn]

/-- Claim C9, witness: the id-0 update and the id-absent update produce the
identical 400 rejection. -/
theorem webhook_zero_chatid_amended_witness :
    (webhook (some c9WitnessBody) none CompOutcome.timeout 0
      (fun _ => HttpOutcome.exc)).httpStatus = 400 ∧
    (webhook (some c9WitnessBody) none CompOutcome.timeout 0
      (fun _ => HttpOutcome.exc)).sends = [] ∧
    webhook (some c9WitnessBody) none CompOutcome.timeout 0 (fun _ => HttpOutcome.exc) =
      webhook (some c9AbsentBody) none CompOutcome.timeout 0
        (fun _ => HttpOutcome.exc) := by
  have h := webhook_zero_chatid_amended c9WitnessBody c9AbsentBody "" "" none
    CompOutcome.timeout 0 (fun _ => HttpOutcome.exc) rfl rfl rfl rfl
  exact ⟨h.1, h.2.2.1, h.2.2.2.2⟩

/-! ## Claim C10 -/

/-- Claim C10.  The sender sleeps after every failed attempt including the
final one: an exhausted delivery performs 3 waits, the event trace ends with
the sleep that follows the third attempt (so false is returned only after
the post-final-attempt wait), and the wait is 1 time unit after a non-200
response and 2 after a transport fault. -/
theorem sender_sleeps_after_final_attempt (oracle : Nat → HttpOutcome)
    (h0 : ok200 (oracle 0) = false) (h1 : ok200 (oracle 1) = false)
    (h2 : ok200 (oracle 2) = false) :
    (send_telegram_message oracle).delivered = false ∧
    sleepCount (send_telegram_message oracle).events = 3 ∧
    (send_telegram_message oracle).events.getLast? =
      some (SendEvent.sleep (failSleep (oracle 2))) ∧
    (∀ s b, failSleep (HttpOutcome.resp s b) = 1) ∧ failSleep HttpOutcome.exc = 2 := by
  rcases send_run_cases oracle with ⟨h, _⟩ | ⟨_, h, _⟩ | ⟨_, _, h, _⟩ | ⟨_, _, _, hv⟩
  · simp_all
  · simp_all
  · simp_all
  · rw [hv]
    exact ⟨rfl, by simp [sleepCount, isAttempt], rfl, fun _ _ => rfl, rfl⟩

/-- Claim C10, witness: a permanently unreachable upstream produces three
2-unit waits and the trace ends with the third wait. -/
theorem sender_sleeps_after_final_attempt_witness :
    (send_telegram_message (fun _ => HttpOutcome.exc)).delivered = false ∧
    sleepCount (send_telegram_message (fun _ => HttpOutcome.exc)).events = 3 ∧
    (send_telegram_message (fun _ => HttpOutcome.exc)).events.getLast? =
      some (SendEvent.sleep 2) := by
  have h := sender_sleeps_after_final_attempt (fun _ => HttpOutcome.exc) rfl rfl rfl
  exact ⟨h.1, h.2.1, h.2.2.1⟩

end Postigo
